import Mathlib

/-!
Shallow embedding of the Telegram support bot (NestJS service in
`src/telegram/telegram.service.ts`, storage collaborator in
`src/supabase/supabase.service.ts`).

Optional environment values and optional strings are modelled as
`Option String`; JavaScript truthiness of such a value (`undefined`/`null`
and the empty string are falsy) is `truthy` below.
-/

namespace KhBot

/-- JS truthiness of a `string | null | undefined` value: `null`/`undefined`
and the empty string are falsy, every other string is truthy. -/
def truthy : Option String → Bool
  | none => false
  | some s => s != ""

/-! ## Content catalog (`videoOptions` in `TelegramService`'s constructor) -/

structure VideoOption where
  label : String
  caption : String
  storagePath : String
  width : Option Nat := none
  height : Option Nat := none
deriving Repr, DecidableEq

/-- The nine catalog entries, in object-literal insertion order. -/
def videoOptionsList : List (String × VideoOption) :=
  [ ("exness_referral",
     { label := "Create an Exness account using Varvannareach referral.",
       caption := "Steps to sign up with the referral link.",
       storagePath := "videos/exness-referral.mp4" }),
    ("create_cent_account",
     { label := "Create a Standard Cent account for bot setup.",
       caption := "Guide to creating the correct Exness account type.",
       storagePath := "videos/create-cent-account.mp4" }),
    ("claim_bot_bhub",
     { label := "Submit or claim the bot from Bhub.",
       caption := "How to claim your bot entitlement via Bhub.",
       storagePath := "videos/claim-bot-bhub.mp4" }),
    ("learn_vps",
     { label := "Learn what a VPS is and how it works.",
       caption := "Intro to VPS concepts and why they matter.",
       storagePath := "videos/learn-vps.mp4" }),
    ("buy_vps",
     { label := "Learn how to buy a VPS from the website.",
       caption := "Walkthrough for purchasing a VPS.",
       storagePath := "videos/buy-vps.mp4" }),
    ("connect_vps",
     { label := "Learn how to connect to a remote VPS (phone, iPad, computer, Mac).",
       caption := "Connection steps for each device type.",
       storagePath := "videos/connect-vps.mp4" }),
    ("setup_bot_vps",
     { label := "Learn how to set up the bot on the VPS.",
       caption := "Full deployment guide on your VPS.",
       storagePath := "videos/setup-bot-vps.mp4" }),
    ("clone_bot_one_account",
     { label := "Learn how to clone the bot to run on one account.",
       caption := "Cloning and running the bot for a single account.",
       storagePath := "videos/clone-bot-one-account.mp4" }),
    ("copy_bot_settings_balances",
     { label := "Learn how to copy bot settings for balances like 5K, 10K, and higher.",
       caption := "Recommended settings across common balance tiers.",
       storagePath := "videos/copy-bot-settings-balances.mp4" }) ]

/-- Own-property lookup on the `videoOptions` object (`videoOptions[key]`
when `key` is an own property). -/
def videoOptionsGet (s : String) : Option VideoOption :=
  videoOptionsList.lookup s

/-- Property names that `key in obj` also finds on a plain object literal
because the `in` operator consults the prototype chain: the members of
`Object.prototype` (plus the `__proto__` accessor). -/
def objectPrototypeKeys : List String :=
  [ "constructor", "hasOwnProperty", "isPrototypeOf", "propertyIsEnumerable",
    "toLocaleString", "toString", "valueOf",
    "__defineGetter__", "__defineSetter__", "__lookupGetter__", "__lookupSetter__",
    "__proto__" ]

/-- `isVideoOptionKey(value)` is `value in this.videoOptions`: the JS `in`
operator is true for the nine own keys and also for every property
inherited from `Object.prototype`. -/
def isVideoOptionKey (s : String) : Bool :=
  (videoOptionsGet s).isSome || objectPrototypeKeys.contains s

/-! ## Configuration resolution (`TelegramService` constructor) -/

/-- The environment values the service reads. A key that is absent from the
environment is `none` (the `?? null` in the constructor). -/
structure AppConfig where
  botTokenPrimary : Option String := none      -- BOT_TOKEN
  botTokenLegacy : Option String := none       -- TELEGRAM_BOT_TOKEN
  webhookUrlPrimary : Option String := none    -- WEBHOOK_URL
  webhookUrlLegacy : Option String := none     -- TELEGRAM_WEBHOOK_URL
  pollingPreferenceRaw : Option String := none -- TELEGRAM_USE_POLLING
  webhookSecret : Option String := none        -- TELEGRAM_WEBHOOK_SECRET
  supabaseBucket : Option String := none       -- SUPABASE_BUCKET
deriving Repr, DecidableEq

/-- `resolveWithAlias`: `primary ?? alias` (nullish coalescing — an empty
string primary still wins; the warning it may log is not modelled). -/
def resolveWithAlias (primary aliasKey : Option String) : Option String :=
  match primary with
  | some p => some p
  | none => aliasKey

def webhookUrl (c : AppConfig) : Option String :=
  resolveWithAlias c.webhookUrlPrimary c.webhookUrlLegacy

def botToken (c : AppConfig) : Option String :=
  resolveWithAlias c.botTokenPrimary c.botTokenLegacy

/-- `String.prototype.toLowerCase()`, modelled characterwise (the ASCII
case mapping, which is all the recognized values use). -/
def toLowerCase (s : String) : String :=
  String.mk (s.data.map Char.toLower)

/-- `this.configService.get('TELEGRAM_USE_POLLING')?.toLowerCase() ?? null`. -/
def pollingPreference (c : AppConfig) : Option String :=
  c.pollingPreferenceRaw.map toLowerCase

/-- `this.useLongPolling = pollingPreference === 'true' || !this.webhookUrl`. -/
def useLongPolling (c : AppConfig) : Bool :=
  pollingPreference c == some "true" || !truthy (webhookUrl c)

/-- The constructor logs its fallback warning exactly when
`!this.webhookUrl && pollingPreference === 'false'`. -/
def constructorWarns (c : AppConfig) : Bool :=
  !truthy (webhookUrl c) && pollingPreference c == some "false"

inductive DispatchMode where
  | webhook
  | polling
deriving Repr, DecidableEq

/-- The mode the service runs under, determined by `useLongPolling`. -/
def dispatchMode (c : AppConfig) : DispatchMode :=
  if useLongPolling c then .polling else .webhook

/-! ## Startup (`onModuleInit` and `configureWebhook`) -/

structure InitResult where
  handlersRegistered : Bool
  startedPolling : Bool
  webhookConfigured : Bool
deriving Repr, DecidableEq

/-- `configureWebhook` registers the webhook only when `this.webhookUrl` is
truthy; otherwise it logs an error and returns without registering. -/
def configureWebhookRegisters (c : AppConfig) : Bool :=
  truthy (webhookUrl c)

/-- `onModuleInit`: a falsy resolved token throws `BOT_TOKEN is not set.`
before any handler is registered; otherwise the bot is created, handlers
are registered, and the mode chosen in the constructor is started. -/
def onModuleInit (c : AppConfig) : Except String InitResult :=
  if !truthy (botToken c) then .error "BOT_TOKEN is not set."
  else if useLongPolling c then
    .ok { handlersRegistered := true, startedPolling := true, webhookConfigured := false }
  else
    .ok { handlersRegistered := true, startedPolling := false,
          webhookConfigured := configureWebhookRegisters c }

/-! ## Webhook gate (`handleWebhookUpdate`) -/

structure WebhookState where
  botInitialized : Bool
  webhookSecret : Option String
deriving Repr, DecidableEq

structure WebhookOutcome where
  ok : Bool
  dispatched : Bool
deriving Repr, DecidableEq

/-- `handleWebhookUpdate(update, secretFromHeader)`: a truthy configured
secret that differs from the header rejects with `{ok: false}`; then a
missing bot rejects with `{ok: false}`; otherwise the update is handed to
`bot.handleUpdate` and `{ok: true}` is returned. -/
def handleWebhookUpdate (st : WebhookState) (secretFromHeader : Option String) :
    WebhookOutcome :=
  if truthy st.webhookSecret && st.webhookSecret != secretFromHeader then
    { ok := false, dispatched := false }
  else if !st.botInitialized then
    { ok := false, dispatched := false }
  else
    { ok := true, dispatched := true }

/-! ## URL resolver (`getVideoUrl` with the `SupabaseService` collaborator) -/

/-- The storage collaborator (`SupabaseService.getSignedUrl` /
`getPublicUrl`), abstracted as functions of bucket and path.  `none` models
an error or a missing client; the code treats a falsy (empty) returned
string the same way, which `truthy` captures at the call sites. -/
structure StorageOracle where
  signedUrl : String → String → Option String
  publicUrl : String → String → Option String

structure CacheEntry where
  url : String
  expiresAt : Int
deriving Repr, DecidableEq

/-- The `signedUrlCache` map, as an association list keyed by
`` `${bucket}:${storagePath}` ``. -/
abbrev Cache := List (String × CacheEntry)

def cacheGet (c : Cache) (k : String) : Option CacheEntry :=
  c.lookup k

/-- `Map.set`: overwrite any previous entry under the key. -/
def cacheSet (c : Cache) (k : String) (e : CacheEntry) : Cache :=
  (k, e) :: c.filter (fun p => p.1 != k)

/-- `expiresInSeconds` in `getVideoUrl`. -/
def expiresInSeconds : Int := 3600

/-- The 15 s safety margin (`now + 15_000`) in the cache-validity check. -/
def safetyMarginMs : Int := 15000

/-- Outcome of one `getVideoUrl` call: the resolved URL (or `none`), the
cache afterwards, and how many signed-URL / public-URL collaborator calls
were made. -/
structure ResolveOut where
  url : Option String
  cache : Cache
  signedFetches : Nat
  publicFetches : Nat
deriving Repr, DecidableEq

/-- The degraded tail of `getVideoUrl`: after a falsy signed URL (one
signed fetch already made), `getPublicUrl` is consulted once; a falsy
public URL yields `null`. -/
def publicFallback (oracle : StorageOracle) (b path : String) (cache : Cache) :
    ResolveOut :=
  match oracle.publicUrl b path with
  | some p => if p = "" then ⟨none, cache, 1, 1⟩ else ⟨some p, cache, 1, 1⟩
  | none => ⟨none, cache, 1, 1⟩

/-- `getVideoUrl(option)`: no truthy bucket → `null` at once (no lookup of
any kind); a cached entry with `expiresAt > now + 15_000` → its URL with no
fetch; otherwise one signed-URL fetch, which on a truthy result is stored
with `expiresAt = now + 3600 * 1000` and returned, and on a falsy result
falls back to one public-URL fetch. -/
def getVideoUrl (bucket : Option String) (oracle : StorageOracle) (cache : Cache)
    (now : Int) (opt : VideoOption) : ResolveOut :=
  match bucket with
  | none => ⟨none, cache, 0, 0⟩
  | some b =>
    if b = "" then ⟨none, cache, 0, 0⟩
    else
      let cacheKey := b ++ ":" ++ opt.storagePath
      match cacheGet cache cacheKey with
      | some e =>
        if now + safetyMarginMs < e.expiresAt then ⟨some e.url, cache, 0, 0⟩
        else
          match oracle.signedUrl b opt.storagePath with
          | some u =>
            if u = "" then publicFallback oracle b opt.storagePath cache
            else ⟨some u, cacheSet cache cacheKey ⟨u, now + expiresInSeconds * 1000⟩, 1, 0⟩
          | none => publicFallback oracle b opt.storagePath cache
      | none =>
        match oracle.signedUrl b opt.storagePath with
        | some u =>
          if u = "" then publicFallback oracle b opt.storagePath cache
          else ⟨some u, cacheSet cache cacheKey ⟨u, now + expiresInSeconds * 1000⟩, 1, 0⟩
        | none => publicFallback oracle b opt.storagePath cache

/-- Whether the cache-validity test of `getVideoUrl` succeeds for key `k`
at time `now`: an entry exists and `expiresAt > now + 15_000`. -/
def cacheValidAt (cache : Cache) (k : String) (now : Int) : Bool :=
  match cacheGet cache k with
  | some e => now + safetyMarginMs < e.expiresAt
  | none => false

/-! ## Dispatcher (the `callback_query` handler, `sendVideoCompressed`,
`safeEditMessage`) -/

/-- Observable transport effects of handling one inbound event. -/
inductive Effect where
  | answerCb (text : String)
  | reply (text : String)
  | chatAction (action : String)
  | sendVideo (url : String) (caption : String) (streaming : Bool)
      (width : Option Nat) (height : Option Nat)
  | editMessage (chatId : Int) (messageId : Int) (text : String)
  | logDebug (text : String)
  | logError (text : String)
deriving Repr, DecidableEq

/-- Exact message strings from the handler (non-ASCII codepoints written
as escapes, byte-for-byte as in the source file). -/
def ackSendingText : String := "Sending video‚Ä¶"

def statusSendingText : String := "üì§ Video is sending..."

def unavailableText : String :=
  "Video will be delivered soon. (Supabase storage not configured or file not found.)"

def unavailableEditText : String :=
  "‚ö†Ô∏è Video will be sent once available."

def sentEditText (label : String) : String :=
  "‚úÖ Video sent: " ++ label

def sendFailedText : String :=
  "Sorry, failed to send the video. Please try again in a moment."

def failedEditText : String :=
  "‚ùå Failed to send video. Please try again."

/-- `safeEditMessage(chatId, messageId, text)`: with no bot it returns at
once; otherwise it attempts the underlying `editMessageText`, whose outcome
is `editResult` — an error is caught and becomes a debug log only.  The
return type carries no error: the function never throws. -/
def safeEditMessage (botInitialized : Bool) (chatId messageId : Int) (text : String)
    (editResult : Except String Unit) : List Effect :=
  if !botInitialized then []
  else
    match editResult with
    | .ok _ => [.editMessage chatId messageId text]
    | .error e =>
      [.logDebug ("Unable to edit message " ++ toString messageId ++ ": " ++ e)]

/-- `sendVideoCompressed(ctx, option, videoUrl)`: an `upload_video` chat
action, then a streaming video reply with the option's caption and
`option.width ?? defaultVideoWidth ?? undefined` dimensions. -/
def sendVideoCompressed (defaultVideoWidth defaultVideoHeight : Option Nat)
    (opt : VideoOption) (videoUrl : String) : List Effect :=
  [ .chatAction "upload_video",
    .sendVideo videoUrl opt.caption true
      (opt.width.orElse fun _ => defaultVideoWidth)
      (opt.height.orElse fun _ => defaultVideoHeight) ]

/-- The value of `data && this.isVideoOptionKey(data) ? this.videoOptions[data] : null`:
`null` for falsy or non-`in` payloads, the descriptor for an own catalog
key, and the (truthy) inherited `Object.prototype` member for payloads such
as `"toString"`. -/
inductive CallbackOption where
  | null
  | descr (v : VideoOption)
  | inherited (name : String)
deriving Repr, DecidableEq

def lookupCallbackOption (data : Option String) : CallbackOption :=
  match data with
  | none => .null
  | some s =>
    if s = "" then .null
    else
      match videoOptionsGet s with
      | some v => .descr v
      | none => if objectPrototypeKeys.contains s then .inherited s else .null

/-- Fields accessed on an inherited `Object.prototype` member are all
`undefined`; the handler only uses them inside template literals and as
collaborator arguments, where JS renders `undefined` as the string
`"undefined"`, which is what this descriptor records. -/
def inheritedOptionView : VideoOption :=
  { label := "undefined", caption := "undefined", storagePath := "undefined" }

/-- Per-event environment of the callback handler: configuration, the
storage collaborator, the clock, the ids of the provisional status message
the transport allocates, and the outcomes of the two fallible transport
calls (the send inside the `try` block, and the underlying edit inside
`safeEditMessage`). -/
structure DispatchEnv where
  bucket : Option String
  oracle : StorageOracle
  now : Int
  defaultVideoWidth : Option Nat := none
  defaultVideoHeight : Option Nat := none
  statusChatId : Int := 0
  statusMessageId : Int := 0
  sendResult : Except String Unit := .ok ()
  editResult : Except String Unit := .ok ()

/-- The body of the callback handler once a truthy option was found:
acknowledge, send the provisional status message, resolve the URL, and
deliver / report, with a best-effort status edit in every terminal flow. -/
def handleWithOption (env : DispatchEnv) (cache : Cache) (opt : VideoOption) :
    List Effect × Cache :=
  let pre : List Effect := [.answerCb ackSendingText, .reply statusSendingText]
  let r := getVideoUrl env.bucket env.oracle cache env.now opt
  match r.url with
  | none =>
    (pre ++ [.reply unavailableText]
        ++ safeEditMessage true env.statusChatId env.statusMessageId
             unavailableEditText env.editResult,
     r.cache)
  | some u =>
    match env.sendResult with
    | .ok _ =>
      (pre ++ sendVideoCompressed env.defaultVideoWidth env.defaultVideoHeight opt u
          ++ safeEditMessage true env.statusChatId env.statusMessageId
               (sentEditText opt.label) env.editResult,
       r.cache)
    | .error e =>
      (pre ++ [.chatAction "upload_video"]
          ++ [.logError ("Failed to send video for " ++ opt.storagePath ++ ": " ++ e)]
          ++ [.reply sendFailedText]
          ++ safeEditMessage true env.statusChatId env.statusMessageId
               failedEditText env.editResult,
       r.cache)

/-- The `callback_query` handler: a falsy option answers the callback with
`Unknown option` and stops; otherwise the delivery flow runs (for an
inherited prototype member, with its `undefined` fields as coerced by JS). -/
def handleCallback (env : DispatchEnv) (cache : Cache) (data : Option String) :
    List Effect × Cache :=
  match lookupCallbackOption data with
  | .null => ([.answerCb "Unknown option"], cache)
  | .descr opt => handleWithOption env cache opt
  | .inherited _ => handleWithOption env cache inheritedOptionView

/-- The effects a chat user observes (replies, acknowledgments, chat
actions, video sends) — everything except status edits and log lines. -/
def userFacing : Effect → Bool
  | .answerCb _ => true
  | .reply _ => true
  | .chatAction _ => true
  | .sendVideo _ _ _ _ _ => true
  | .editMessage _ _ _ => false
  | .logDebug _ => false
  | .logError _ => false

/-! ## Helper lemmas on the URL resolver -/

/-- A valid cache entry is returned as-is: no fetch, cache untouched. -/
theorem getVideoUrl_cache_hit (oracle : StorageOracle) (cache : Cache)
    (now : Int) (opt : VideoOption) (b : String) (e : CacheEntry) (hb : b ≠ "")
    (hc : cacheGet cache (b ++ ":" ++ opt.storagePath) = some e)
    (hv : now + safetyMarginMs < e.expiresAt) :
    getVideoUrl (some b) oracle cache now opt = ⟨some e.url, cache, 0, 0⟩ := by
  simp only [getVideoUrl, hc]
  rw [if_neg hb, if_pos hv]

/-- An invalid (missing or stale) cache entry together with a truthy signed
URL yields exactly one signed fetch and an overwrite with
`expiresAt = now + 3600 * 1000`. -/
theorem getVideoUrl_fetch_success (oracle : StorageOracle) (cache : Cache)
    (now : Int) (opt : VideoOption) (b u : String) (hb : b ≠ "")
    (hmiss : cacheValidAt cache (b ++ ":" ++ opt.storagePath) now = false)
    (hsig : oracle.signedUrl b opt.storagePath = some u) (hu : u ≠ "") :
    getVideoUrl (some b) oracle cache now opt
      = ⟨some u,
         cacheSet cache (b ++ ":" ++ opt.storagePath) ⟨u, now + expiresInSeconds * 1000⟩,
         1, 0⟩ := by
  unfold cacheValidAt at hmiss
  simp only [getVideoUrl]
  rw [if_neg hb]
  cases hc : cacheGet cache (b ++ ":" ++ opt.storagePath) with
  | none => simp only [hc, hsig, if_neg hu]
  | some e =>
    simp only [hc, decide_eq_false_iff_not] at hmiss
    simp only [hc, if_neg hmiss, hsig, if_neg hu]

/-- An invalid cache entry together with a falsy signed URL runs the public
fallback: one signed fetch, one public fetch, cache untouched. -/
theorem getVideoUrl_fetch_failure (oracle : StorageOracle) (cache : Cache)
    (now : Int) (opt : VideoOption) (b : String) (hb : b ≠ "")
    (hmiss : cacheValidAt cache (b ++ ":" ++ opt.storagePath) now = false)
    (hsig : truthy (oracle.signedUrl b opt.storagePath) = false) :
    getVideoUrl (some b) oracle cache now opt
      = publicFallback oracle b opt.storagePath cache := by
  unfold cacheValidAt at hmiss
  simp only [getVideoUrl]
  rw [if_neg hb]
  have hstep :
      (match oracle.signedUrl b opt.storagePath with
        | some u =>
          if u = "" then publicFallback oracle b opt.storagePath cache
          else (⟨some u,
            cacheSet cache (b ++ ":" ++ opt.storagePath) ⟨u, now + expiresInSeconds * 1000⟩,
            1, 0⟩ : ResolveOut)
        | none => publicFallback oracle b opt.storagePath cache)
      = publicFallback oracle b opt.storagePath cache := by
    cases hs : oracle.signedUrl b opt.storagePath with
    | none => rfl
    | some u =>
      rw [hs] at hsig
      simp only [truthy] at hsig
      have hu : u = "" := by simpa using hsig
      simp [if_pos hu]
  cases hc : cacheGet cache (b ++ ":" ++ opt.storagePath) with
  | none => simpa only [hc] using hstep
  | some e =>
    simp only [hc, decide_eq_false_iff_not] at hmiss
    simpa only [hc, if_neg hmiss] using hstep

/-- The public fallback never touches the cache and makes exactly one
public fetch; it returns `none` exactly when the public URL is falsy. -/
theorem publicFallback_spec (oracle : StorageOracle) (b path : String) (cache : Cache) :
    (publicFallback oracle b path cache).cache = cache
    ∧ (publicFallback oracle b path cache).signedFetches = 1
    ∧ (publicFallback oracle b path cache).publicFetches = 1
    ∧ ((publicFallback oracle b path cache).url = none
        ↔ truthy (oracle.publicUrl b path) = false) := by
  unfold publicFallback
  cases hp : oracle.publicUrl b path with
  | none => simp [truthy]
  | some p =>
    by_cases hp' : p = ""
    · simp [hp', truthy]
    · simp [hp', truthy]

/-! ## Claim theorems -/

/-- C9: invoked before the bot is initialized, `handleWebhookUpdate`
returns `{ok: false}` and does not hand the update to the dispatcher,
whatever the configured secret and header are. -/
theorem handleWebhookUpdate_uninitialized_rejects
    (secret header : Option String) :
    handleWebhookUpdate ⟨false, secret⟩ header = ⟨false, false⟩ := by
  unfold handleWebhookUpdate
  split <;> rfl

/-- C2 counterexample: with no secret configured but the bot not yet
initialized, the update is rejected, contradicting the claim that a call
with no configured secret is accepted whatever the header carries. -/
theorem handleWebhookUpdate_no_secret_still_rejected :
    handleWebhookUpdate ⟨false, none⟩ (some "anything") = ⟨false, false⟩ := rfl

/-- C2 (amended): once the bot is initialized, a falsy configured secret
accepts any header; a truthy secret accepts an exactly matching header;
and a truthy secret with a differing or absent header is rejected with
`{ok: false}` and no dispatch, regardless of initialization. -/
theorem handleWebhookUpdate_gate_spec (st : WebhookState) :
    (∀ header, truthy st.webhookSecret = false → st.botInitialized = true →
        handleWebhookUpdate st header = ⟨true, true⟩)
    ∧ (∀ s, st.webhookSecret = some s → s ≠ "" → st.botInitialized = true →
        handleWebhookUpdate st (some s) = ⟨true, true⟩)
    ∧ (∀ header, truthy st.webhookSecret = true → st.webhookSecret ≠ header →
        handleWebhookUpdate st header = ⟨false, false⟩) := by
  refine ⟨?_, ?_, ?_⟩
  · intro header h1 h2
    simp [handleWebhookUpdate, h1, h2]
  · intro s hs hne h2
    simp [handleWebhookUpdate, hs, h2]
  · intro header h1 hne
    simp [handleWebhookUpdate, h1, bne_iff_ne, hne]

/-- Witness for C2's amended theorem at the spec's own test vectors. -/
theorem handleWebhookUpdate_gate_spec_witness :
    handleWebhookUpdate ⟨true, none⟩ (some "anything") = ⟨true, true⟩
    ∧ handleWebhookUpdate ⟨true, some "X"⟩ (some "X") = ⟨true, true⟩
    ∧ handleWebhookUpdate ⟨true, some "X"⟩ (some "Y") = ⟨false, false⟩
    ∧ handleWebhookUpdate ⟨true, some "X"⟩ none = ⟨false, false⟩ :=
  ⟨(handleWebhookUpdate_gate_spec ⟨true, none⟩).1 (some "anything") (by decide) rfl,
   (handleWebhookUpdate_gate_spec ⟨true, some "X"⟩).2.1 "X" rfl (by decide) rfl,
   (handleWebhookUpdate_gate_spec ⟨true, some "X"⟩).2.2 (some "Y") (by decide) (by decide),
   (handleWebhookUpdate_gate_spec ⟨true, some "X"⟩).2.2 none (by decide) (by decide)⟩

/-- C3: a falsy resolved bot token makes `onModuleInit` throw before any
handler is registered; webhook mode is never selected without a truthy
callback URL (so the half-configured case is unreachable); and when
webhook mode is selected with a token, startup completes with the webhook
registered. -/
theorem onModuleInit_config_guard :
    (∀ c : AppConfig, truthy (botToken c) = false →
        onModuleInit c = .error "BOT_TOKEN is not set.")
    ∧ (∀ c : AppConfig, useLongPolling c = false → truthy (webhookUrl c) = true)
    ∧ (∀ c : AppConfig, truthy (botToken c) = true → useLongPolling c = false →
        onModuleInit c = .ok ⟨true, false, true⟩) := by
  have hurl : ∀ c : AppConfig, useLongPolling c = false → truthy (webhookUrl c) = true := by
    intro c h
    unfold useLongPolling at h
    rcases Bool.or_eq_false_iff.mp h with ⟨-, h2⟩
    simpa using h2
  refine ⟨?_, hurl, ?_⟩
  · intro c h
    simp [onModuleInit, h]
  · intro c h1 h2
    simp [onModuleInit, h1, h2, configureWebhookRegisters, hurl c h2]

/-- Witness for C3: an empty configuration throws; a webhook configuration
with a token starts with the webhook registered. -/
theorem onModuleInit_config_guard_witness :
    onModuleInit {} = .error "BOT_TOKEN is not set."
    ∧ onModuleInit { botTokenPrimary := some "t", webhookUrlPrimary := some "https://h/w" }
        = .ok ⟨true, false, true⟩ :=
  ⟨onModuleInit_config_guard.1 {} (by decide),
   onModuleInit_config_guard.2.2
     { botTokenPrimary := some "t", webhookUrlPrimary := some "https://h/w" }
     (by decide) (by decide)⟩

/-- C5 counterexample: with the polling override unset and no callback
URL, the mode is Polling but no warning is emitted, contradicting the
claim that the warning accompanies every `(false/unset, no URL)` case. -/
theorem modeSelection_unset_no_warning :
    dispatchMode {} = DispatchMode.polling ∧ constructorWarns {} = false := by
  exact ⟨rfl, rfl⟩

/-- C5 (amended): mode is a pure function of the normalized override and
callback-URL truthiness — override `true` forces Polling; otherwise a
truthy URL yields Webhook; a falsy URL yields Polling, with the warning
emitted iff the override is explicitly `false`. -/
theorem modeSelection_spec (c : AppConfig) :
    (pollingPreference c = some "true" → dispatchMode c = DispatchMode.polling)
    ∧ (pollingPreference c ≠ some "true" → truthy (webhookUrl c) = true →
        dispatchMode c = DispatchMode.webhook)
    ∧ (truthy (webhookUrl c) = false →
        dispatchMode c = DispatchMode.polling
        ∧ (constructorWarns c = true ↔ pollingPreference c = some "false")) := by
  refine ⟨?_, ?_, ?_⟩
  · intro h
    simp [dispatchMode, useLongPolling, h]
  · intro h1 h2
    simp [dispatchMode, useLongPolling, h1, h2]
  · intro h
    constructor
    · simp [dispatchMode, useLongPolling, h]
    · simp [constructorWarns, h]

/-- Witness for C5's amended theorem at three concrete configurations. -/
theorem modeSelection_spec_witness :
    dispatchMode { pollingPreferenceRaw := some "TRUE", webhookUrlPrimary := some "https://h" }
        = DispatchMode.polling
    ∧ dispatchMode { webhookUrlLegacy := some "https://h" } = DispatchMode.webhook
    ∧ (dispatchMode { pollingPreferenceRaw := some "false" } = DispatchMode.polling
        ∧ (constructorWarns { pollingPreferenceRaw := some "false" } = true
            ↔ pollingPreference { pollingPreferenceRaw := some "false" } = some "false")) :=
  ⟨(modeSelection_spec _).1 (by decide),
   (modeSelection_spec _).2.1 (by decide) (by decide),
   (modeSelection_spec _).2.2 (by decide)⟩

/-- C1 (code evaluated at the failing input): `"toString"` is not an own
catalog key, yet it passes the `in`-based `isVideoOptionKey` check via the
prototype chain, and the dispatcher answers the callback with the sending
acknowledgment and sends chat messages instead of answering
`Unknown option`. -/
theorem callback_prototype_key_not_rejected :
    isVideoOptionKey "toString" = true
    ∧ videoOptionsGet "toString" = none
    ∧ (handleCallback
        { bucket := none, oracle := ⟨fun _ _ => none, fun _ _ => none⟩, now := 0 }
        [] (some "toString")).1
      = [.answerCb ackSendingText, .reply statusSendingText, .reply unavailableText,
         .editMessage 0 0 unavailableEditText] := by
  refine ⟨rfl, rfl, rfl⟩

/-- C4 counterexample: with no bucket configured the resolver returns
`null` immediately and performs zero public-URL lookups, even though the
public-URL provider would have returned a URL — so the claimed degraded
fallback does not run in the no-bucket case. -/
theorem getVideoUrl_noBucket_skips_public_fallback :
    getVideoUrl none
      ⟨fun _ _ => none, fun _ _ => some "https://public.example/v.mp4"⟩
      [] 0 { label := "l", caption := "c", storagePath := "p" }
      = ⟨none, [], 0, 0⟩ := rfl

/-- C4 (amended): when a truthy bucket is configured and the fresh
signed-URL fetch is falsy, the resolver makes exactly one public-URL
lookup and returns `null` iff that lookup is falsy too; with no bucket it
returns `null` immediately with no lookup of any kind. -/
theorem getVideoUrl_degraded_fallback (oracle : StorageOracle) (cache : Cache)
    (now : Int) (opt : VideoOption) (b : String) (hb : b ≠ "")
    (hmiss : cacheValidAt cache (b ++ ":" ++ opt.storagePath) now = false)
    (hsig : truthy (oracle.signedUrl b opt.storagePath) = false) :
    (getVideoUrl (some b) oracle cache now opt).publicFetches = 1
    ∧ ((getVideoUrl (some b) oracle cache now opt).url = none
        ↔ truthy (oracle.publicUrl b opt.storagePath) = false)
    ∧ (∀ (o : StorageOracle) (c : Cache) (n : Int) (v : VideoOption),
        getVideoUrl none o c n v = ⟨none, c, 0, 0⟩) := by
  have h := getVideoUrl_fetch_failure oracle cache now opt b hb hmiss hsig
  have hp := publicFallback_spec oracle b opt.storagePath cache
  refine ⟨?_, ?_, ?_⟩
  · rw [h]
    exact hp.2.2.1
  · rw [h]
    exact hp.2.2.2
  · intro o c n v
    rfl

/-- Witness for C4's amended theorem: signed resolution fails, the single
public lookup succeeds and is returned. -/
theorem getVideoUrl_degraded_fallback_witness :
    (getVideoUrl (some "videos")
        ⟨fun _ _ => none, fun _ _ => some "https://pub.example/x.mp4"⟩ [] 0
        { label := "l", caption := "c", storagePath := "p" }).publicFetches = 1
    ∧ ((getVideoUrl (some "videos")
        ⟨fun _ _ => none, fun _ _ => some "https://pub.example/x.mp4"⟩ [] 0
        { label := "l", caption := "c", storagePath := "p" }).url = none
        ↔ truthy (some "https://pub.example/x.mp4") = false)
    ∧ (∀ (o : StorageOracle) (c : Cache) (n : Int) (v : VideoOption),
        getVideoUrl none o c n v = ⟨none, c, 0, 0⟩) :=
  getVideoUrl_degraded_fallback
    ⟨fun _ _ => none, fun _ _ => some "https://pub.example/x.mp4"⟩ [] 0
    { label := "l", caption := "c", storagePath := "p" } "videos"
    (by decide) (by decide) (by decide)

/-- C6 counterexample: a call on a stale entry whose fresh signed fetch
fails leaves the old entry in place (expiry still `10`, not
`now + 3600 * 1000`), so the claim's unconditional "overwrites the entry"
part is false. -/
theorem staleEntry_kept_on_failed_refresh :
    (getVideoUrl (some "b") ⟨fun _ _ => none, fun _ _ => none⟩
        [("b:p", ⟨"https://old.example/u", 10⟩)] 100000
        { label := "l", caption := "c", storagePath := "p" }).signedFetches = 1
    ∧ cacheGet (getVideoUrl (some "b") ⟨fun _ _ => none, fun _ _ => none⟩
        [("b:p", ⟨"https://old.example/u", 10⟩)] 100000
        { label := "l", caption := "c", storagePath := "p" }).cache "b:p"
      = some ⟨"https://old.example/u", 10⟩
    ∧ (10 : Int) ≠ 100000 + expiresInSeconds * 1000 := by
  refine ⟨rfl, rfl, by decide⟩

/-- C6 (amended): while a cached entry satisfies
`expiresAt > now + 15_000`, every resolution returns that entry's URL with
no signed fetch and an unchanged cache (so two such calls return the
identical URL); a call on an invalid entry performs exactly one fresh
signed fetch and — when the fetch returns a truthy URL — overwrites the
entry with `expiresAt = now + 3600 * 1000`. -/
theorem signedUrlCache_idempotence (b : String) (oracle : StorageOracle)
    (cache : Cache) (opt : VideoOption) (hb : b ≠ "") :
    (∀ (e : CacheEntry) (now₁ now₂ : Int),
        cacheGet cache (b ++ ":" ++ opt.storagePath) = some e →
        now₁ + safetyMarginMs < e.expiresAt →
        now₂ + safetyMarginMs < e.expiresAt →
        getVideoUrl (some b) oracle cache now₁ opt = ⟨some e.url, cache, 0, 0⟩
        ∧ getVideoUrl (some b) oracle cache now₂ opt = ⟨some e.url, cache, 0, 0⟩)
    ∧ (∀ (now : Int) (u : String),
        cacheValidAt cache (b ++ ":" ++ opt.storagePath) now = false →
        oracle.signedUrl b opt.storagePath = some u → u ≠ "" →
        getVideoUrl (some b) oracle cache now opt
          = ⟨some u,
             cacheSet cache (b ++ ":" ++ opt.storagePath)
               ⟨u, now + expiresInSeconds * 1000⟩, 1, 0⟩) := by
  refine ⟨?_, ?_⟩
  · intro e now₁ now₂ hc h1 h2
    exact ⟨getVideoUrl_cache_hit oracle cache now₁ opt b e hb hc h1,
           getVideoUrl_cache_hit oracle cache now₂ opt b e hb hc h2⟩
  · intro now u hmiss hsig hu
    exact getVideoUrl_fetch_success oracle cache now opt b u hb hmiss hsig hu

/-- Witness for C6's amended theorem: two hits on a valid entry return the
identical URL with no fetch; a miss on an empty cache fetches once and
stores the fresh expiry. -/
theorem signedUrlCache_idempotence_witness :
    (getVideoUrl (some "b") ⟨fun _ _ => none, fun _ _ => none⟩
        [("b:p", ⟨"https://cdn.example/u", 1000000⟩)] 0
        { label := "l", caption := "c", storagePath := "p" }
      = ⟨some "https://cdn.example/u", [("b:p", ⟨"https://cdn.example/u", 1000000⟩)], 0, 0⟩
    ∧ getVideoUrl (some "b") ⟨fun _ _ => none, fun _ _ => none⟩
        [("b:p", ⟨"https://cdn.example/u", 1000000⟩)] 500
        { label := "l", caption := "c", storagePath := "p" }
      = ⟨some "https://cdn.example/u", [("b:p", ⟨"https://cdn.example/u", 1000000⟩)], 0, 0⟩)
    ∧ getVideoUrl (some "b") ⟨fun _ _ => some "https://cdn.example/new", fun _ _ => none⟩
        [] 7 { label := "l", caption := "c", storagePath := "p" }
      = ⟨some "https://cdn.example/new",
         cacheSet [] "b:p" ⟨"https://cdn.example/new", 7 + expiresInSeconds * 1000⟩, 1, 0⟩ :=
  ⟨(signedUrlCache_idempotence "b" ⟨fun _ _ => none, fun _ _ => none⟩
      [("b:p", ⟨"https://cdn.example/u", 1000000⟩)]
      { label := "l", caption := "c", storagePath := "p" } (by decide)).1
      ⟨"https://cdn.example/u", 1000000⟩ 0 500 rfl (by decide) (by decide),
   (signedUrlCache_idempotence "b" ⟨fun _ _ => some "https://cdn.example/new", fun _ _ => none⟩
      [] { label := "l", caption := "c", storagePath := "p" } (by decide)).2
      7 "https://cdn.example/new" (by decide) rfl (by decide)⟩

/-- C10: one resolver call either leaves the cache unchanged or inserts
exactly the freshly signed, truthy URL with
`expiresAt = now + 3600 * 1000`; any call that consulted the public
fallback leaves the cache unchanged and made exactly one public lookup —
so a public URL is never cached and every public-path delivery does a
fresh public lookup. -/
theorem signedUrlCache_write_invariant (bucket : Option String)
    (oracle : StorageOracle) (cache : Cache) (now : Int) (opt : VideoOption) :
    ((getVideoUrl bucket oracle cache now opt).cache = cache
      ∨ ∃ b u, bucket = some b
          ∧ oracle.signedUrl b opt.storagePath = some u ∧ u ≠ ""
          ∧ (getVideoUrl bucket oracle cache now opt).cache
              = cacheSet cache (b ++ ":" ++ opt.storagePath)
                  ⟨u, now + expiresInSeconds * 1000⟩
          ∧ (getVideoUrl bucket oracle cache now opt).url = some u
          ∧ (getVideoUrl bucket oracle cache now opt).signedFetches = 1)
    ∧ ((getVideoUrl bucket oracle cache now opt).publicFetches ≥ 1 →
        (getVideoUrl bucket oracle cache now opt).cache = cache
        ∧ (getVideoUrl bucket oracle cache now opt).publicFetches = 1) := by
  cases bucket with
  | none => exact ⟨Or.inl rfl, fun h => absurd h (by simp [getVideoUrl])⟩
  | some b =>
    by_cases hb : b = ""
    · subst hb
      exact ⟨Or.inl rfl, fun h => absurd h (by simp [getVideoUrl])⟩
    · by_cases hval : cacheValidAt cache (b ++ ":" ++ opt.storagePath) now = true
      · obtain ⟨e, hc, hv⟩ :
            ∃ e, cacheGet cache (b ++ ":" ++ opt.storagePath) = some e
              ∧ now + safetyMarginMs < e.expiresAt := by
          unfold cacheValidAt at hval
          cases hc : cacheGet cache (b ++ ":" ++ opt.storagePath) with
          | none => rw [hc] at hval; exact absurd hval (by simp)
          | some e =>
            rw [hc] at hval
            exact ⟨e, rfl, of_decide_eq_true hval⟩
        rw [getVideoUrl_cache_hit oracle cache now opt b e hb hc hv]
        exact ⟨Or.inl rfl, fun h => absurd h (by simp)⟩
      · have hmiss : cacheValidAt cache (b ++ ":" ++ opt.storagePath) now = false :=
          Bool.eq_false_iff.mpr hval
        cases hs : oracle.signedUrl b opt.storagePath with
        | none =>
          have h := getVideoUrl_fetch_failure oracle cache now opt b hb hmiss
            (by rw [hs]; rfl)
          have hp := publicFallback_spec oracle b opt.storagePath cache
          rw [h]
          exact ⟨Or.inl hp.1, fun _ => ⟨hp.1, hp.2.2.1⟩⟩
        | some u =>
          by_cases hu : u = ""
          · have h := getVideoUrl_fetch_failure oracle cache now opt b hb hmiss
              (by rw [hs, hu]; rfl)
            have hp := publicFallback_spec oracle b opt.storagePath cache
            rw [h]
            exact ⟨Or.inl hp.1, fun _ => ⟨hp.1, hp.2.2.1⟩⟩
          · have h := getVideoUrl_fetch_success oracle cache now opt b u hb hmiss hs hu
            rw [h]
            exact ⟨Or.inr ⟨b, u, rfl, hs, hu, rfl, rfl, rfl⟩,
                   fun hge => absurd hge (by simp)⟩

/-- Witness for C10: a public-fallback call at a concrete input leaves the
cache unchanged after one public lookup. -/
theorem signedUrlCache_write_invariant_witness :
    (getVideoUrl (some "b") ⟨fun _ _ => none, fun _ _ => some "https://pub.example/w.mp4"⟩
        [] 0 { label := "l", caption := "c", storagePath := "p" }).cache = []
    ∧ (getVideoUrl (some "b") ⟨fun _ _ => none, fun _ _ => some "https://pub.example/w.mp4"⟩
        [] 0 { label := "l", caption := "c", storagePath := "p" }).publicFetches = 1 :=
  (signedUrlCache_write_invariant (some "b")
      ⟨fun _ _ => none, fun _ _ => some "https://pub.example/w.mp4"⟩
      [] 0 { label := "l", caption := "c", storagePath := "p" }).2 (by decide)

/-- The edit attempt of `safeEditMessage` contributes no user-facing
effect, whatever the underlying edit's outcome. -/
theorem filter_userFacing_safeEdit (b : Bool) (chatId messageId : Int)
    (text : String) (res : Except String Unit) :
    (safeEditMessage b chatId messageId text res).filter userFacing = [] := by
  unfold safeEditMessage
  cases b <;> cases res <;> simp [userFacing]

/-- The user-facing effects and the resulting cache of the delivery flow
do not depend on the outcome of the underlying status-message edit. -/
theorem handleWithOption_edit_invariant (bucket : Option String)
    (oracle : StorageOracle) (now : Int) (dw dh : Option Nat)
    (chatId messageId : Int) (send res res' : Except String Unit)
    (cache : Cache) (opt : VideoOption) :
    ((handleWithOption ⟨bucket, oracle, now, dw, dh, chatId, messageId, send, res⟩
        cache opt).1.filter userFacing
      = (handleWithOption ⟨bucket, oracle, now, dw, dh, chatId, messageId, send, res'⟩
          cache opt).1.filter userFacing)
    ∧ (handleWithOption ⟨bucket, oracle, now, dw, dh, chatId, messageId, send, res⟩
        cache opt).2
      = (handleWithOption ⟨bucket, oracle, now, dw, dh, chatId, messageId, send, res'⟩
          cache opt).2 := by
  unfold handleWithOption
  dsimp only
  cases hres : (getVideoUrl bucket oracle cache now opt).url with
  | none =>
    simp [List.filter_cons, List.filter_append, filter_userFacing_safeEdit, userFacing]
  | some u =>
    cases hsend : send with
    | ok v =>
      simp [List.filter_cons, List.filter_append, filter_userFacing_safeEdit, userFacing,
            sendVideoCompressed]
    | error e =>
      simp [List.filter_cons, List.filter_append, filter_userFacing_safeEdit, userFacing]

/-- C8: the status-message edit is purely cosmetic — `safeEditMessage`
returns without surfacing any error, its effects are never user-facing,
and the user-facing effects and cache of the whole callback flow are
identical whether the underlying edit succeeds or fails. -/
theorem safeEditMessage_cosmetic (env : DispatchEnv) (cache : Cache)
    (data : Option String) (res res' : Except String Unit) :
    ((handleCallback { env with editResult := res } cache data).1.filter userFacing
      = (handleCallback { env with editResult := res' } cache data).1.filter userFacing)
    ∧ (handleCallback { env with editResult := res } cache data).2
      = (handleCallback { env with editResult := res' } cache data).2
    ∧ (∀ (b : Bool) (chatId messageId : Int) (text : String),
        (safeEditMessage b chatId messageId text res).all
          (fun ef => !userFacing ef) = true) := by
  refine ⟨?_, ?_, ?_⟩
  · cases hl : lookupCallbackOption data with
    | null => simp [handleCallback, hl]
    | descr opt =>
      simp only [handleCallback, hl]
      exact (handleWithOption_edit_invariant env.bucket env.oracle env.now
        env.defaultVideoWidth env.defaultVideoHeight env.statusChatId
        env.statusMessageId env.sendResult res res' cache opt).1
    | inherited s =>
      simp only [handleCallback, hl]
      exact (handleWithOption_edit_invariant env.bucket env.oracle env.now
        env.defaultVideoWidth env.defaultVideoHeight env.statusChatId
        env.statusMessageId env.sendResult res res' cache inheritedOptionView).1
  · cases hl : lookupCallbackOption data with
    | null => simp [handleCallback, hl]
    | descr opt =>
      simp only [handleCallback, hl]
      exact (handleWithOption_edit_invariant env.bucket env.oracle env.now
        env.defaultVideoWidth env.defaultVideoHeight env.statusChatId
        env.statusMessageId env.sendResult res res' cache opt).2
    | inherited s =>
      simp only [handleCallback, hl]
      exact (handleWithOption_edit_invariant env.bucket env.oracle env.now
        env.defaultVideoWidth env.defaultVideoHeight env.statusChatId
        env.statusMessageId env.sendResult res res' cache inheritedOptionView).2
  · intro b chatId messageId text
    unfold safeEditMessage
    cases b <;> cases res <;> simp [userFacing]

/-- C7: for a catalog payload with a configured bucket and a fresh truthy
signed URL, delivery succeeding, the handler's effects are exactly: the
callback acknowledgment, the provisional status reply, the upload_video
presence action, the streaming video send carrying that URL with the
descriptor caption and descriptor-else-default dimensions, then the edit
of the provisional message to the success indicator — in that order. -/
theorem happyPath_effect_order (env : DispatchEnv) (cache : Cache)
    (k : String) (opt : VideoOption) (b u : String)
    (hk : videoOptionsGet k = some opt)
    (hbucket : env.bucket = some b) (hb : b ≠ "")
    (hmiss : cacheValidAt cache (b ++ ":" ++ opt.storagePath) env.now = false)
    (hsig : env.oracle.signedUrl b opt.storagePath = some u) (hu : u ≠ "")
    (hsend : env.sendResult = .ok ()) (hedit : env.editResult = .ok ()) :
    (handleCallback env cache (some k)).1
      = [.answerCb ackSendingText, .reply statusSendingText,
         .chatAction "upload_video",
         .sendVideo u opt.caption true
           (opt.width.orElse fun _ => env.defaultVideoWidth)
           (opt.height.orElse fun _ => env.defaultVideoHeight),
         .editMessage env.statusChatId env.statusMessageId (sentEditText opt.label)] := by
  have hnone : videoOptionsGet "" = none := by decide
  have hk0 : k ≠ "" := by
    intro h
    subst h
    rw [hnone] at hk
    exact Option.noConfusion hk
  have hlookup : lookupCallbackOption (some k) = .descr opt := by
    simp only [lookupCallbackOption, if_neg hk0, hk]
  have hres := getVideoUrl_fetch_success env.oracle cache env.now opt b u hb hmiss hsig hu
  rw [← hbucket] at hres
  simp [handleCallback, hlookup, handleWithOption, hres, hsend, hedit,
        sendVideoCompressed, safeEditMessage]

/-- Witness for C7 at the spec's happy-path scenario (`learn_vps`, bucket
configured, signed URL resolves). -/
theorem happyPath_effect_order_witness :
    (handleCallback
        { bucket := some "videos",
          oracle := ⟨fun _ _ => some "https://cdn.example/signed/learn-vps.mp4",
                     fun _ _ => none⟩,
          now := 0 }
        [] (some "learn_vps")).1
      = [.answerCb ackSendingText, .reply statusSendingText,
         .chatAction "upload_video",
         .sendVideo "https://cdn.example/signed/learn-vps.mp4"
           "Intro to VPS concepts and why they matter." true none none,
         .editMessage 0 0 (sentEditText "Learn what a VPS is and how it works.")] :=
  happyPath_effect_order
    { bucket := some "videos",
      oracle := ⟨fun _ _ => some "https://cdn.example/signed/learn-vps.mp4",
                 fun _ _ => none⟩,
      now := 0 }
    [] "learn_vps"
    { label := "Learn what a VPS is and how it works.",
      caption := "Intro to VPS concepts and why they matter.",
      storagePath := "videos/learn-vps.mp4" }
    "videos" "https://cdn.example/signed/learn-vps.mp4"
    (by decide) rfl (by decide) (by decide) rfl (by decide) rfl rfl

end KhBot
